import Mathlib

/-!
Shallow embedding of `src/litestar_browser_reload/__init__.py` (the whole
repository core): the reload websocket session, its background watch task,
the version stamp, the filter resolution in `watch_reload`, and the plugin
registration in `on_app_init`.  Asynchronous code is modelled as a small-step
transition system over an explicit session state, with cooperative
scheduling: a coroutine runs uninterrupted from one true suspension point to
the next, `asyncio.create_task` makes the child runnable but does not run it,
and a websocket send hands its frame to the transport during the send
statement's synchronous segment, so delivery order equals send-statement
order on a live connection.
-/

namespace BrowserReload

/-- A filesystem path, as its list of components. -/
abbrev Path := List String

/-- An opaque websocket handle.  A Python socket object is always truthy. -/
abbrev Socket := Nat

/-- One detected filesystem change: a `watchfiles` change-kind code and the
affected path. -/
structure ChangeEvent where
  kind : Nat
  path : Path
deriving DecidableEq

/-- Wire payload sent to the client (lines 53 and 59 of the source): the
connect-time ping carrying the version stamp, or a reload push. -/
inductive ReloadMessage where
  | ping (versionId : String)
  | reload
deriving DecidableEq

/-- Python exceptions the embedded code can raise. -/
inductive PyErr where
  | attributeError
  | runtimeError (msg : String)
deriving DecidableEq

/-- A `watchfiles.DefaultFilter` value: either the one `watch_reload` builds
from the configured ignore lists (lines 37-40), or an opaque instance supplied
by the caller as `watch_filter`. -/
inductive FilterVal where
  | defaultFilter (ignore_dirs : Option (List String))
      (ignore_entity_patterns : Option (List String))
  | customFilter (id : Nat)
deriving DecidableEq

/-- Line 37 of the source:
`filter_class = watch_filter or DefaultFilter(ignore_dirs=..., ignore_entity_patterns=...)`.
A `DefaultFilter` instance is truthy and `None` is falsy, so Python `or`
selects the override exactly when one was supplied. -/
def resolve_watch_filter (watch_filter : Option FilterVal)
    (ignore_dirs : Option (List String))
    (ignore_entity_patterns : Option (List String)) : FilterVal :=
  match watch_filter with
  | some f => f
  | none => FilterVal.defaultFilter ignore_dirs ignore_entity_patterns

/-- `prompt_reload` (lines 50-53): reads `self.ws`; while the attribute is
unset the lookup raises `AttributeError` before any send; a set socket is a
truthy Python object, so the guard passes and exactly one reload message is
sent.  Returns the outcome together with the messages sent. -/
def prompt_reload (ws : Option Socket) : Except PyErr Unit × List ReloadMessage :=
  match ws with
  | none => (Except.error PyErr.attributeError, [])
  | some _ => (Except.ok (), [ReloadMessage.reload])

/-- The `async for` loop of `watch_reload` (lines 41-45), over a finite
prefix of the batches yielded by `awatch`: one `prompt_reload` call per
yielded batch, in yield order; an exception from the callback aborts the
loop.  Returns the outcome together with the messages sent. -/
def watch_reload (ws : Option Socket) :
    List (List ChangeEvent) → Except PyErr Unit × List ReloadMessage
  | [] => (Except.ok (), [])
  | _ :: rest =>
    match prompt_reload ws with
    | (Except.ok _, ms) =>
      let r := watch_reload ws rest
      (r.1, ms ++ r.2)
    | (Except.error e, ms) => (Except.error e, ms)

/-- Modelled from the spec: the external File Watcher collaborator
`watchfiles.awatch` is not part of this repository; its interface contract
says it observes the given root paths and yields batched change events, where
every reported event lies under one of the watched roots and passes the
filter, and batches that are empty after filtering are never surfaced.
`raw` is a finite prefix of the raw batched events reported by the OS
facility. -/
def awatch (watch_paths : List Path) (flt : ChangeEvent → Bool)
    (raw : List (List ChangeEvent)) : List (List ChangeEvent) :=
  (raw.map (fun b =>
    b.filter (fun e => watch_paths.any (fun r => r.isPrefixOf e.path) && flt e))).filter
    (fun b => !b.isEmpty)

/-- Program counter of the `on_accept` coroutine: not yet run, completed with
the ping delivered, or failed because the ping send raised. -/
inductive MainPC where
  | start
  | accepted
  | failed
deriving DecidableEq

/-- Per-connection session state.  `sent` is the sequence of messages
delivered to this client, in delivery order; `pending` the batches the
watcher has yet to yield to this session; `alive` whether the transport can
still deliver frames. -/
structure SessionState where
  ws : Option Socket
  watchTaskStarted : Bool
  mainPC : MainPC
  pending : List (List ChangeEvent)
  sent : List ReloadMessage
  alive : Bool
deriving DecidableEq

/-- A fresh session, about to run `on_accept`, whose watcher will yield
`batches`. -/
def initState (batches : List (List ChangeEvent)) : SessionState :=
  { ws := none, watchTaskStarted := false, mainPC := MainPC.start,
    pending := batches, sent := [], alive := true }

/-- `on_accept` (lines 55-59) as one atomic scheduler segment: under
cooperative scheduling the coroutine runs uninterrupted from its first
statement to its first true suspension, which is inside the ping send.
Line 57 creates the watch task (it becomes runnable but has not yet run),
line 58 assigns `self.ws`, line 59 sends the ping; `sendOk` abstracts whether
that send succeeds.  On failure the exception propagates out of `on_accept`
and the connection is torn down. -/
def on_accept (vid : String) (socket : Socket) (sendOk : Bool)
    (s : SessionState) : SessionState :=
  let s1 := { s with watchTaskStarted := true, ws := some socket }
  if sendOk then
    { s1 with mainPC := MainPC.accepted,
              sent := s1.sent ++ [ReloadMessage.ping vid] }
  else
    { s1 with mainPC := MainPC.failed, alive := false }

/-- One iteration of the watch task's `async for` (lines 41-45): consume the
next yielded batch and run `prompt_reload`; a dead transport delivers
nothing (the send raises instead). -/
def watch_task_step (s : SessionState) : SessionState :=
  match s.pending with
  | [] => s
  | _ :: rest =>
    { s with pending := rest,
             sent := s.sent ++ (if s.alive then (prompt_reload s.ws).2 else []) }

/-- Interleaving semantics of one session: the scheduler may run the
`on_accept` segment (once, from the fresh state, and a successful send needs
a live transport), run one watch-task iteration (only after the task has been
created, since `asyncio.create_task` does not preempt the creating
coroutine), or the client connection may die at any point. -/
inductive Step (vid : String) (sock : Socket) : SessionState → SessionState → Prop
  | accept (sendOk : Bool) (s : SessionState) (h : s.mainPC = MainPC.start)
      (hok : sendOk = true → s.alive = true) :
      Step vid sock s (on_accept vid sock sendOk s)
  | watch (s : SessionState) (h : s.watchTaskStarted = true) :
      Step vid sock s (watch_task_step s)
  | disconnect (s : SessionState) :
      Step vid sock s { s with alive := false }

/-- Session states reachable from a fresh session. -/
def Reachable (vid : String) (sock : Socket) (batches : List (List ChangeEvent))
    (s : SessionState) : Prop :=
  Relation.ReflTransGen (Step vid sock) (initState batches) s

/-- Invariant relating the `on_accept` program counter to the delivered
messages: nothing is delivered before `on_accept` runs, a completed
`on_accept` has delivered the ping first, and a failed ping send leaves a
dead transport with nothing delivered. -/
def SessionInv (vid : String) (s : SessionState) : Prop :=
  (s.mainPC = MainPC.start → s.sent = [] ∧ s.watchTaskStarted = false)
  ∧ (s.mainPC = MainPC.accepted →
      ∃ rest, s.sent = ReloadMessage.ping vid :: rest)
  ∧ (s.mainPC = MainPC.failed → s.sent = [] ∧ s.alive = false)

/-- Outcome of the awaited watch task as observed by `on_disconnect`. -/
inductive TaskOutcome where
  | completed
  | cancelled
  | failed (e : PyErr)
deriving DecidableEq

/-- `on_disconnect` (lines 61-67): cancels the watch task and awaits it;
`asyncio.CancelledError` is caught and debug-logged; the `try` block has no
other handler, so any other exception raised by the awaited task propagates
out of `on_disconnect`. -/
def on_disconnect (outcome : TaskOutcome) : Except PyErr Unit :=
  match outcome with
  | TaskOutcome.completed => Except.ok ()
  | TaskOutcome.cancelled => Except.ok ()
  | TaskOutcome.failed e => Except.error e

/-- `on_receive` (lines 69-70): returns `data` and touches nothing else;
modelled with the session state threaded through to make the absence of any
state effect explicit. -/
def on_receive (s : SessionState) (data : String) : String × SessionState :=
  (data, s)

/-- A route handler appended to the host application's route table. -/
inductive RouteHandler where
  | reloadEndpoint (path : String) (watch_paths : List Path)
      (ignore_dirs : Option (List String))
      (ignore_entity_patterns : Option (List String))
      (watch_filter : Option FilterVal)
  | staticFilesRouter (path : String) (name : String)
  | other (id : Nat)
deriving DecidableEq

/-- The litestar `AppConfig` fields this plugin touches. -/
structure AppConfig where
  debug : Bool
  route_handlers : List RouteHandler
deriving DecidableEq

/-- The plugin's stored configuration (lines 75-86). -/
structure BrowserReloadPlugin where
  watch_paths : List Path
  ignore_dirs : Option (List String)
  ignore_entity_patterns : Option (List String)
  watch_filter : Option FilterVal
deriving DecidableEq

/-- `BrowserReloadPlugin.__init__` (lines 76-86): stores the four arguments
verbatim, performing no validation. -/
def BrowserReloadPlugin.init (watch_paths : List Path)
    (ignore_dirs : Option (List String))
    (ignore_entity_patterns : Option (List String))
    (watch_filter : Option FilterVal) : BrowserReloadPlugin :=
  ⟨watch_paths, ignore_dirs, ignore_entity_patterns, watch_filter⟩

/-- `reload_endpoint` (lines 28-72) returns the websocket handler class,
registered at the fixed path `/__reload__` (line 48). -/
def reload_endpoint (watch_paths : List Path)
    (ignore_dirs : Option (List String))
    (ignore_entity_patterns : Option (List String))
    (watch_filter : Option FilterVal) : RouteHandler :=
  RouteHandler.reloadEndpoint "/__reload__" watch_paths ignore_dirs
    ignore_entity_patterns watch_filter

/-- The `create_static_files_router` call (lines 96-104). -/
def static_files_router : RouteHandler :=
  RouteHandler.staticFilesRouter "/__reload__/static" "browser_reload_static"

/-- `on_app_init` (lines 88-105): when `app_config.debug` is set, append the
reload endpoint and then the static-files router; otherwise return the
configuration untouched. -/
def on_app_init (p : BrowserReloadPlugin) (app_config : AppConfig) : AppConfig :=
  if app_config.debug then
    { app_config with route_handlers := app_config.route_handlers
        ++ [reload_endpoint p.watch_paths p.ignore_dirs
              p.ignore_entity_patterns p.watch_filter,
            static_files_router] }
  else app_config

theorem init_inv (vid : String) (batches : List (List ChangeEvent)) :
    SessionInv vid (initState batches) := by
  refine ⟨fun _ => ⟨rfl, rfl⟩, fun h => ?_, fun h => ?_⟩ <;> simp [initState] at h

theorem step_preserves_inv (vid : String) (sock : Socket)
    {s t : SessionState} (hstep : Step vid sock s t)
    (hinv : SessionInv vid s) : SessionInv vid t := by
  obtain ⟨h1, h2, h3⟩ := hinv
  cases hstep with
  | accept sendOk s h hok =>
    obtain ⟨hsent, -⟩ := h1 h
    cases sendOk with
    | true =>
      refine ⟨fun hc => ?_, fun _ => ⟨[], ?_⟩, fun hc => ?_⟩
      · simp [on_accept] at hc
      · simp [on_accept, hsent]
      · simp [on_accept] at hc
    | false =>
      refine ⟨fun hc => ?_, fun hc => ?_, fun _ => ⟨?_, ?_⟩⟩
      · simp [on_accept] at hc
      · simp [on_accept] at hc
      · simpa [on_accept] using hsent
      · simp [on_accept]
  | watch s h =>
    cases hp : s.pending with
    | nil =>
      exact ⟨by simpa [watch_task_step, hp] using h1,
        by simpa [watch_task_step, hp] using h2,
        by simpa [watch_task_step, hp] using h3⟩
    | cons b rest =>
      refine ⟨fun hc => ?_, fun hc => ?_, fun hc => ?_⟩
      · have hc' : s.mainPC = MainPC.start := by
          simpa [watch_task_step, hp] using hc
        exact absurd (h1 hc').2 (by simp [h])
      · have hc' : s.mainPC = MainPC.accepted := by
          simpa [watch_task_step, hp] using hc
        obtain ⟨r, hr⟩ := h2 hc'
        exact ⟨r ++ (if s.alive then (prompt_reload s.ws).2 else []),
          by simp [watch_task_step, hp, hr]⟩
      · have hc' : s.mainPC = MainPC.failed := by
          simpa [watch_task_step, hp] using hc
        obtain ⟨hs, ha⟩ := h3 hc'
        exact ⟨by simp [watch_task_step, hp, hs, ha], by simpa [watch_task_step, hp]⟩
  | disconnect s =>
    refine ⟨fun hc => ?_, fun hc => ?_, fun hc => ?_⟩
    · simpa using h1 (by simpa using hc)
    · simpa using h2 (by simpa using hc)
    · exact ⟨(h3 (by simpa using hc)).1, rfl⟩

theorem reachable_inv (vid : String) (sock : Socket)
    (batches : List (List ChangeEvent)) {s : SessionState}
    (hr : Reachable vid sock batches s) : SessionInv vid s := by
  unfold Reachable at hr
  induction hr with
  | refl => exact init_inv vid batches
  | tail _ hstep ih => exact step_preserves_inv vid sock hstep ih

/-- C1: for every connection and every task interleaving, if a `reload`
message has been delivered then the first delivered message is the `ping`
carrying the process version stamp: the ping precedes any reload. -/
theorem ping_before_reload (vid : String) (sock : Socket)
    (batches : List (List ChangeEvent)) (s : SessionState)
    (hr : Reachable vid sock batches s)
    (hm : ReloadMessage.reload ∈ s.sent) :
    s.sent.head? = some (ReloadMessage.ping vid) := by
  obtain ⟨h1, h2, h3⟩ := reachable_inv vid sock batches hr
  cases hpc : s.mainPC with
  | start =>
    rw [(h1 hpc).1] at hm
    cases hm
  | accepted =>
    obtain ⟨r, hr'⟩ := h2 hpc
    simp [hr']
  | failed =>
    rw [(h3 hpc).1] at hm
    cases hm

/-- A concrete batch used by witnesses. -/
def demoBatch : List ChangeEvent := [⟨2, ["src", "x.py"]⟩]

/-- The session state after `on_accept` succeeds and the watch task forwards
one batch. -/
def demoFinal : SessionState :=
  watch_task_step (on_accept "v0" 0 true (initState [demoBatch]))

/-- Witness for C1 at a concrete two-step trace. -/
theorem ping_before_reload_witness :
    demoFinal.sent.head? = some (ReloadMessage.ping "v0") :=
  ping_before_reload "v0" 0 [demoBatch] demoFinal
    (Relation.ReflTransGen.head
      (Step.accept true (initState [demoBatch]) rfl (fun _ => rfl))
      (Relation.ReflTransGen.head
        (Step.watch (on_accept "v0" 0 true (initState [demoBatch])) rfl)
        Relation.ReflTransGen.refl))
    (by decide)

/-- C2 counterexample: when the ping send fails, `on_accept` has already
executed `asyncio.create_task` (line 57 precedes line 59), so the session
leaves `on_accept` in the failed state with the watch task started —
contradicting the claim that a failed ping send means no watch task was
started. -/
theorem watch_started_despite_ping_failure :
    (on_accept "v0" 0 false (initState [])).watchTaskStarted = true
    ∧ (on_accept "v0" 0 false (initState [])).mainPC = MainPC.failed := by
  decide

/-- C2 amended: on connect-accept the watch task is started before the ping
is sent, unconditionally — whether the ping send succeeds or fails, the watch
task has already been created, and a failed send delivers nothing and leaves
the session failed with a dead transport (it is then torn down). -/
theorem watch_task_started_before_ping (vid : String) (sock : Socket)
    (s : SessionState) :
    (on_accept vid sock true s).watchTaskStarted = true
    ∧ (on_accept vid sock false s).watchTaskStarted = true
    ∧ (on_accept vid sock false s).sent = s.sent
    ∧ (on_accept vid sock false s).mainPC = MainPC.failed
    ∧ (on_accept vid sock false s).alive = false := by
  refine ⟨rfl, rfl, rfl, rfl, rfl⟩

/-- C3 counterexample: a non-cancellation exception raised by the awaited
watch task propagates out of `on_disconnect` — the `try` only catches
`asyncio.CancelledError`, so the claim that other exceptions are logged and
contained is false. -/
theorem on_disconnect_propagates_failure :
    on_disconnect (TaskOutcome.failed (PyErr.runtimeError "boom"))
      = Except.error (PyErr.runtimeError "boom") := rfl

/-- C3 amended: during teardown, cancellation of the watch task is swallowed
(only debug-logged) and a normally completed task is also unexceptional, but
any other exception raised by the watch task is neither caught nor logged and
propagates out of `on_disconnect`. -/
theorem on_disconnect_cancel_swallowed (e : PyErr) :
    on_disconnect TaskOutcome.cancelled = Except.ok ()
    ∧ on_disconnect TaskOutcome.completed = Except.ok ()
    ∧ on_disconnect (TaskOutcome.failed e) = Except.error e := by
  refine ⟨rfl, rfl, rfl⟩

/-- C4: the version stamp is a single module-level value (line 25), read but
never written by the sessions; every session's successful `on_accept`
delivers the ping carrying exactly that value, so any two sessions of one
process deliver pings with the same `versionId` string. -/
theorem version_id_shared_across_sessions (vid : String)
    (sock1 sock2 : Socket) (b1 b2 : List (List ChangeEvent)) :
    (on_accept vid sock1 true (initState b1)).sent = [ReloadMessage.ping vid]
    ∧ (on_accept vid sock1 true (initState b1)).sent
        = (on_accept vid sock2 true (initState b2)).sent := by
  refine ⟨rfl, rfl⟩

/-- C5: `on_app_init` registers nothing when the debug flag is off (the
configuration is returned untouched), and appends exactly the reload
endpoint followed by the static-files route when it is on. -/
theorem on_app_init_gated (p : BrowserReloadPlugin) (cfg : AppConfig) :
    (cfg.debug = false → on_app_init p cfg = cfg)
    ∧ (cfg.debug = true → (on_app_init p cfg).route_handlers
        = cfg.route_handlers
          ++ [reload_endpoint p.watch_paths p.ignore_dirs
                p.ignore_entity_patterns p.watch_filter,
              static_files_router]) := by
  constructor
  · intro h
    simp [on_app_init, h]
  · intro h
    simp [on_app_init, h]

/-- A concrete plugin configuration used by witnesses. -/
def plug0 : BrowserReloadPlugin := BrowserReloadPlugin.init [] none none none

/-- Witness for C5 at concrete configurations with the flag off and on. -/
theorem on_app_init_gated_witness :
    on_app_init plug0 ⟨false, []⟩ = (⟨false, []⟩ : AppConfig)
    ∧ (on_app_init plug0 ⟨true, []⟩).route_handlers
        = [reload_endpoint [] none none none, static_files_router] :=
  ⟨(on_app_init_gated plug0 ⟨false, []⟩).1 rfl,
   (on_app_init_gated plug0 ⟨true, []⟩).2 rfl⟩

/-- C6: a supplied `watch_filter` entirely replaces the default filter — the
resolved filter is exactly the override and does not depend on the configured
ignore lists; with no override, the resolved filter is the default filter
built from exactly the configured ignore lists. -/
theorem watch_filter_override (f : FilterVal)
    (i1 i2 j1 j2 : Option (List String)) :
    resolve_watch_filter (some f) i1 i2 = f
    ∧ resolve_watch_filter (some f) i1 i2 = resolve_watch_filter (some f) j1 j2
    ∧ resolve_watch_filter none i1 i2 = FilterVal.defaultFilter i1 i2 := by
  refine ⟨rfl, rfl, rfl⟩

/-- C7: with the websocket reference set (the Active state), the watch loop
sends exactly one `reload` message per yielded batch, in yield order — the
sent sequence is the batch sequence mapped to `reload`, so no batch is
duplicated or reordered. -/
theorem reload_once_per_batch (sock : Socket)
    (batches : List (List ChangeEvent)) :
    (watch_reload (some sock) batches).2
      = batches.map (fun _ => ReloadMessage.reload) := by
  induction batches with
  | nil => rfl
  | cons b rest ih => simp [watch_reload, prompt_reload, ih]

/-- C8: `on_receive` returns its string payload unchanged and leaves the
session state exactly as it was. -/
theorem on_receive_identity (s : SessionState) (data : String) :
    (on_receive s data).1 = data ∧ (on_receive s data).2 = s := by
  refine ⟨rfl, rfl⟩

theorem awatch_nil_roots (flt : ChangeEvent → Bool) :
    ∀ raw : List (List ChangeEvent), awatch [] flt raw = [] := by
  intro raw
  induction raw with
  | nil => rfl
  | cons b rest ih =>
    simp [awatch, List.filter]

/-- C9: an empty `watch_paths` with no override is accepted: the plugin
constructor stores it without validation, `on_accept` still completes
normally, and since every batch the watcher yields consists of events under
some watched root, the session never sends a `reload` message. -/
theorem empty_watch_paths_degenerate (flt : ChangeEvent → Bool)
    (raw : List (List ChangeEvent)) (sock : Socket) :
    (BrowserReloadPlugin.init [] none none none).watch_paths = []
    ∧ awatch [] flt raw = []
    ∧ (watch_reload (some sock) (awatch [] flt raw)).2 = []
    ∧ (on_accept "v" sock true (initState (awatch [] flt raw))).mainPC
        = MainPC.accepted := by
  refine ⟨rfl, awatch_nil_roots flt raw, ?_, rfl⟩
  rw [awatch_nil_roots flt raw]
  rfl

/-- C10: `prompt_reload` sends a `reload` message exactly when the session's
websocket attribute is set (a set socket object is truthy); when the watch
callback runs before `on_accept` has assigned the attribute, the lookup of
`self.ws` raises `AttributeError` before any send, so no `reload` reaches the
connection. -/
theorem prompt_reload_guard (ws : Option Socket) :
    (ReloadMessage.reload ∈ (prompt_reload ws).2 ↔ ws.isSome = true)
    ∧ (prompt_reload none).2 = []
    ∧ (prompt_reload none).1 = Except.error PyErr.attributeError := by
  refine ⟨?_, rfl, rfl⟩
  cases ws <;> simp [prompt_reload]

/-- Witness for C10 at the concrete unset and set attribute values. -/
theorem prompt_reload_guard_witness :
    ((ReloadMessage.reload ∈ (prompt_reload none).2 ↔ (none : Option Socket).isSome = true)
      ∧ (prompt_reload none).2 = []
      ∧ (prompt_reload none).1 = Except.error PyErr.attributeError)
    ∧ (ReloadMessage.reload ∈ (prompt_reload (some 0)).2
        ↔ (some 0 : Option Socket).isSome = true) :=
  ⟨prompt_reload_guard none, (prompt_reload_guard (some 0)).1⟩

end BrowserReload
